import Mathlib

/-!
Verification of the pve-ontap-snapshot orchestration tool (both revisions,
`src/pve-ontap-snapshot.py` and `src/nfs/pve-ontap-snapshot.py`) against its
natural-language specification.

The program is shallowly embedded: strings are `List Char` (written `Str`),
the Python builtins the code uses (`in`, `str.split`, `str.strip`,
`str.removesuffix`, `os.path.split`, `os.path.splitext`) are translated to
executable Lean functions, and the effectful methods of the `VM` and
`Storage` classes are translated to pure functions that return the list of
external actions they perform together with an optional process exit code.
External state (the Proxmox API, the ONTAP controller) is passed in
explicitly: each operation receives the resolved `Volume`, the snapshot
enumeration, or the outcome of a controller request as an argument.
-/

namespace PveOntap

/-- Strings of the embedded program: Python `str` as a list of characters. -/
abbrev Str := List Char

/-! ## Python string builtins -/

/-- `isPrefixB a b` decides whether `a` is a prefix of `b`. -/
def isPrefixB : Str → Str → Bool
  | [], _ => true
  | _ :: _, [] => false
  | a :: as, b :: bs => a == b && isPrefixB as bs

/-- Python's substring test `needle in hay`: `needle` occurs contiguously in `hay`. -/
def isInfixB (needle : Str) : Str → Bool
  | [] => needle.isEmpty
  | c :: t => isPrefixB needle (c :: t) || isInfixB needle t

/-- Python's `s.endswith(suffix)`. -/
def isSuffixB (suffix s : Str) : Bool :=
  isPrefixB suffix.reverse s.reverse

/-- Python's `s.removesuffix(suffix)`: drop `suffix` from the end when present,
otherwise return `s` unchanged. -/
def pyRemovesuffix (s suffix : Str) : Str :=
  if suffix ≠ [] && isSuffixB suffix s then s.take (s.length - suffix.length) else s

/-- Python's `s.strip(c)` for a one-character set: remove every leading and
trailing occurrence of `c`. -/
def pyStrip (c : Char) (s : Str) : Str :=
  ((s.dropWhile (· == c)).reverse.dropWhile (· == c)).reverse

/-- Python's `s.split(sep)` for a one-character separator: split on every
occurrence, keeping empty pieces. -/
def pySplit (sep : Char) : Str → List Str
  | [] => [[]]
  | c :: rest =>
    match pySplit sep rest with
    | [] => [[c]]
    | h :: t => if c == sep then [] :: h :: t else (c :: h) :: t

/-- One past the index of the last occurrence of `c` in `p`
(Python `p.rfind(c) + 1`); `0` when `c` does not occur. -/
def rfindP1 (c : Char) (p : Str) : Nat :=
  match p.reverse.findIdx? (· == c) with
  | some j => p.length - j
  | none => 0

/-- `os.path.split` (posix): split off the last path component; the head is
stripped of trailing slashes unless it consists only of slashes. -/
def pathSplit (p : Str) : Str × Str :=
  let i := rfindP1 '/' p
  let head := p.take i
  let tail := p.drop i
  if head ≠ [] && head.any (· ≠ '/') then
    (head.reverse.dropWhile (· == '/') |>.reverse, tail)
  else
    (head, tail)

/-- `os.path.splitext` (posix): split off the extension at the last dot,
except that dots leading a path component never start an extension. -/
def splitext (p : Str) : Str × Str :=
  let s := rfindP1 '/' p
  let d := rfindP1 '.' p
  if s < d && ((p.drop s).take (d - 1 - s)).any (· ≠ '.') then
    (p.take (d - 1), p.drop (d - 1))
  else
    (p, [])

/-! ## Data model -/

/-- An ONTAP volume as the tool reads it: `name`, `uuid`, the owning
storage-virtual-machine's name (`volume.svm.name`) and the clone flag
(`volume.clone.is_flexclone`). -/
structure Volume where
  name : Str
  uuid : Str
  svm_name : Str
  clone_is_flexclone : Bool
  deriving DecidableEq, Repr, Inhabited

/-- A volume-level snapshot as enumerated from the controller. -/
structure Snap where
  name : Str
  comment : Str
  deriving DecidableEq, Repr, Inhabited

/-- The `Storage` object: backend name, derived backing-volume name, the
configuration key its access bundle is looked up under, and the VM disk
attached by `add_vm_disk` (the empty string until then). -/
structure Storage where
  storage : Str
  volume_name : Str
  accessKey : Str
  disk : Str
  deriving DecidableEq, Repr, Inhabited

/-- Attributes of a Proxmox storage backend as returned by
`prox.storage(name).get()`. -/
structure ProxStorageAttrs where
  server : Str
  type_ : Str
  content : Str
  export_ : Str
  deriving DecidableEq, Repr, Inhabited

/-- The request body of an ONTAP `FileClone` post (`VM.create`). -/
structure FileCloneReq where
  volume_name : Str
  volume_uuid : Str
  source_path : Str
  destination_path : Str
  overwrite_destination : Bool
  deriving DecidableEq, Repr, Inhabited

/-- The request body of the clone-volume post issued by `Storage.mount`. -/
structure CloneVolumeReq where
  name : Str
  svm_name : Str
  parent_volume : Str
  parent_snapshot : Str
  is_flexclone : Bool
  type_ : Str
  nas_path : Str
  deriving DecidableEq, Repr, Inhabited

/-- External actions an operation performs, in program order. -/
inductive Action where
  | getVolume (name : Str)
  | logError (msg : Str)
  | postSnapshot (name comment volName volUuid : Str)
  | deleteSnapshot (name comment : Str)
  | cliSnapshotRestore (vserver volume snapshot : Str) (force : Bool)
  | postCloneVolume (req : CloneVolumeReq)
  | getProxStorage (name : Str)
  | postProxStorage (storage server type_ content export_ : Str)
  | deleteProxStorage (name : Str)
  | deleteVolume (name : Str) (force : Bool)
  | postFileClone (req : FileCloneReq)
  | printVolume (v : Volume)
  deriving DecidableEq, Repr, Inhabited

/-- The clone suffix of compute-node backend names. -/
def cloneSuffix : Str := "-CLONE".data

/-- Access Resolver lookup key: `Storage.__init__` reads
`config[storage.removesuffix('-CLONE')]`. -/
def storageAccessKey (storage : Str) : Str :=
  pyRemovesuffix storage cloneSuffix

/-- `Storage.__init__`: the backing volume name is the Proxmox backend's
`export` attribute with `'/'` stripped from both ends
(`self.prox.storage(storage).get()['export'].strip('/')`), and the access
bundle is looked up under the `-CLONE`-stripped key. `exportOf` supplies the
compute-node API's `export` attribute for a backend name. -/
def Storage.build (exportOf : Str → Str) (name : Str) : Storage :=
  { storage := name
    volume_name := pyStrip '/' (exportOf name)
    accessKey := storageAccessKey name
    disk := [] }

/-- `Storage.add_vm_disk`: overwrite the single `disk` field. -/
def Storage.add_vm_disk (st : Storage) (disk_name : Str) : Storage :=
  { st with disk := disk_name }

/-! ## Disk-to-Volume Mapper (`VM.__init__`, the loop over config items) -/

/-- The qualifying-entry test of `VM.__init__`: the key contains `ide`,
`sata` or `scsi`, the value contains `qcow2`, `raw` or `vmdk`, and the value
does not contain `cdrom` — all substring tests. -/
def diskQualifies (key value : Str) : Bool :=
  (isInfixB "ide".data key || isInfixB "sata".data key || isInfixB "scsi".data key)
    && (isInfixB "qcow2".data value || isInfixB "raw".data value
        || isInfixB "vmdk".data value)
    && !isInfixB "cdrom".data value

/-- `storage_name = value.split(':')[0]` and
`storage_disk = value.split(':')[1].split(',')[0]`; `none` models the
`IndexError` raised when the value has no `':'`. -/
def parseDiskValue (value : Str) : Option (Str × Str) :=
  match pySplit ':' value with
  | s0 :: s1 :: _ => some (s0, (pySplit ',' s1).headD [])
  | _ => none

/-- The `(storage_name, storage_disk)` pairs produced by the `VM.__init__`
loop, one per qualifying config entry, in configuration order; `none` when a
qualifying value cannot be split (uncaught `IndexError`). -/
def vmDiskEntries : List (Str × Str) → Option (List (Str × Str))
  | [] => some []
  | (k, v) :: rest =>
    if diskQualifies k v then
      match parseDiskValue v with
      | none => none
      | some e => (vmDiskEntries rest).map (e :: ·)
    else vmDiskEntries rest

/-- `self.storages`: one `Storage` object per qualifying config entry, built
from the entry's backend name and given the entry's disk via `add_vm_disk`. -/
def vmStorages (exportOf : Str → Str) (config : List (Str × Str)) :
    Option (List Storage) :=
  (vmDiskEntries config).map
    (List.map fun e => (Storage.build exportOf e.1).add_vm_disk e.2)

/-! ## VM Disk Snapshot Operation (`VM.create`, the clone loop) -/

/-- The generated clone file name
`f'{splitext(filename)[0]}-snapshot-{timestamp}{splitext(filename)[1]}'`. -/
def snapshotFileName (filename timestamp : Str) : Str :=
  (splitext filename).1 ++ "-snapshot-".data ++ timestamp ++ (splitext filename).2

/-- One `FileClone` request of `VM.create` for one storage's disk. -/
def fileCloneRequest (volume : Volume) (disk timestamp : Str) : FileCloneReq :=
  let vm_dir := (pathSplit disk).1
  let filename := (pathSplit disk).2
  { volume_name := volume.name
    volume_uuid := volume.uuid
    source_path := "images/".data ++ disk
    destination_path :=
      "images/".data ++ vm_dir ++ "/".data ++ snapshotFileName filename timestamp
    overwrite_destination := false }

/-- The clone requests issued by `VM.create`: the timestamp is computed once
before the loop and every disk's request uses that same value. `volOf`
supplies the volume resolved by `get_volume` for a volume name. -/
def VM.createRequests (storages : List Storage) (timestamp : Str)
    (volOf : Str → Volume) : List FileCloneReq :=
  storages.map fun st => fileCloneRequest (volOf st.volume_name) st.disk timestamp

/-! ## Storage operations -/

/-- `Storage.create`: post one volume snapshot named
`proxmox_snapshot_<timestamp>`. -/
def Storage.create (st : Storage) (volume : Volume) (timestamp : Str) :
    List Action × Option Nat :=
  ([Action.getVolume st.volume_name,
    Action.postSnapshot ("proxmox_snapshot_".data ++ timestamp)
      ("Snapshot of Proxmox storage ".data ++ st.storage) volume.name volume.uuid],
   none)

/-- `Storage.restore`: forced controller-side snapshot restore. -/
def Storage.restore (st : Storage) (volume : Volume) (snapshot : Str) :
    List Action × Option Nat :=
  ([Action.getVolume st.volume_name,
    Action.cliSnapshotRestore volume.svm_name volume.name snapshot true],
   none)

/-- `Storage.delete`: iterate the volume's snapshot enumeration and delete
each snapshot whose name equals the argument (the loop has no break). -/
def Storage.delete (st : Storage) (snaps : List Snap) (snapshot : Str) :
    List Action × Option Nat :=
  (Action.getVolume st.volume_name ::
    ((snaps.filter fun sn => snapshot == sn.name).map
      fun sn => Action.deleteSnapshot sn.name sn.comment),
   none)

/-- `Storage.list`: print a `(name, comment)` pair for each enumerated
snapshot whose name contains `proxmox_snapshot_` (a substring test). -/
def Storage.list (st : Storage) (snaps : List Snap) :
    List Action × List (Str × Str) :=
  ([Action.getVolume st.volume_name],
   (snaps.filter fun sn => isInfixB "proxmox_snapshot_".data sn.name).map
     fun sn => (sn.name, sn.comment))

/-- `Storage.mount`: post the clone-volume request; a `NetAppRestError` is
caught and logged, and the flow continues to register the `<backend>-CLONE`
Proxmox storage either way. `cloneResult` is the controller's response,
`store` the original backend's attributes. -/
def Storage.mount (st : Storage) (parent_volume : Volume) (snapshot : Str)
    (cloneResult : Except Str Unit) (store : ProxStorageAttrs) :
    List Action × Option Nat :=
  let request_body : CloneVolumeReq :=
    { name := st.volume_name ++ "_clone".data
      svm_name := parent_volume.svm_name
      parent_volume := st.volume_name
      parent_snapshot := snapshot
      is_flexclone := true
      type_ := "rw".data
      nas_path := "/".data ++ st.volume_name ++ "_clone".data }
  let cloneActions :=
    match cloneResult with
    | .ok _ => [Action.postCloneVolume request_body]
    | .error e => [Action.postCloneVolume request_body, Action.logError e]
  (Action.getVolume st.volume_name :: cloneActions ++
    [Action.getProxStorage st.storage,
     Action.postProxStorage (st.storage ++ cloneSuffix) store.server store.type_
       store.content ("/".data ++ st.volume_name ++ "_clone".data)],
   none)

/-- `Storage.unmount`: when the resolved volume's clone flag is unset, log
and `sys.exit(1)` before any deletion; otherwise delete the Proxmox backend
registration and then force-delete the clone volume. -/
def Storage.unmount (st : Storage) (volume : Volume) : List Action × Option Nat :=
  if !volume.clone_is_flexclone then
    ([Action.getVolume st.volume_name,
      Action.logError (st.storage ++ " is not a mounted volume snapshot!".data)],
     some 1)
  else
    ([Action.getVolume st.volume_name,
      Action.deleteProxStorage st.storage,
      Action.deleteVolume volume.name true],
     none)

/-- `Storage.show`: resolve the volume and print it. -/
def Storage.show_ (st : Storage) (volume : Volume) : List Action × Option Nat :=
  ([Action.getVolume st.volume_name, Action.printVolume volume], none)

/-- The volume names an operation's trace passes to `get_volume`. -/
def lookupsOf (acts : List Action) : List Str :=
  acts.filterMap fun a =>
    match a with
    | .getVolume n => some n
    | _ => none

/-- The `(name, comment)` pairs of the snapshots a trace deletes. -/
def deletedOf (acts : List Action) : List (Str × Str) :=
  acts.filterMap fun a =>
    match a with
    | .deleteSnapshot n c => some (n, c)
    | _ => none

/-- Whether an action deletes external state (a Proxmox backend
registration, a volume, or a snapshot). -/
def Action.isDeletion : Action → Bool
  | .deleteProxStorage _ => true
  | .deleteVolume _ _ => true
  | .deleteSnapshot _ _ => true
  | _ => false

/-! ## VM Lifecycle Controller (`VM.shutdown` / `VM.suspend` / `VM.start`) -/

/-- Exceptions the embedded code distinguishes: `proxmoxer.ResourceException`
(a compute-node resource error), a transport-level communication error, the
controller's `NetAppRestError`, and `RecursionError` (the exception the main
revision's lifecycle handlers actually name). -/
inductive PyExc where
  | resourceException (msg : Str)
  | connectionError (msg : Str)
  | netAppRestError (msg : Str)
  | recursionError (msg : Str)
  deriving DecidableEq, Repr

/-- A communication or resource error of the compute-node API. -/
def PyExc.commOrResource : PyExc → Bool
  | .resourceException _ => true
  | .connectionError _ => true
  | _ => false

/-- The `while True` poll loop: read the task status; on the expected
terminal value return, otherwise `sleep(1)` and poll again. The result on a
finite trace of poll outcomes is an error if a poll raises, `some (p, s)`
(`p` polls made, `s` one-second sleeps) if a poll observes the terminal
value, and `none` if the trace is exhausted with the loop still running. -/
def pollUntil (expected : Str) : List (Except PyExc Str) → Except PyExc (Option (Nat × Nat))
  | [] => .ok none
  | .error e :: _ => .error e
  | .ok s :: rest =>
    if s == expected then .ok (some (1, 0))
    else
      match pollUntil expected rest with
      | .error e => .error e
      | .ok none => .ok none
      | .ok (some (p, sl)) => .ok (some (p + 1, sl + 1))

/-- The body of a lifecycle method's `try` block: issue the action post,
poll to the terminal value, and (for shutdown and suspend) refresh the
cached VM status. `ok (some ())` is normal completion, `ok none` a run
still inside the poll loop. -/
def lifecycleBody (expected : Str) (refreshStatus : Bool) (post : Except PyExc Str)
    (polls : List (Except PyExc Str)) (refresh : Except PyExc Str) :
    Except PyExc (Option Unit) :=
  match post with
  | .error e => .error e
  | .ok _ =>
    match pollUntil expected polls with
    | .error e => .error e
    | .ok none => .ok none
    | .ok (some _) =>
      if refreshStatus then
        match refresh with
        | .error e => .error e
        | .ok _ => .ok (some ())
      else .ok (some ())

/-- What a lifecycle method leaves the process in. -/
inductive ProcOutcome where
  | finished
  | stillPolling
  | exited (code : Nat)
  | raised (e : PyExc)
  deriving DecidableEq, Repr

/-- Run a `try` body under the method's `except` clause: a caught exception
leads to `sys.exit(1)`, an uncaught one propagates. -/
def runWithHandler (catches : PyExc → Bool) (body : Except PyExc (Option Unit)) :
    ProcOutcome :=
  match body with
  | .ok (some _) => .finished
  | .ok none => .stillPolling
  | .error e => if catches e then .exited 1 else .raised e

/-- The main revision's handlers name `RecursionError`. -/
def catchesMain : PyExc → Bool
  | .recursionError _ => true
  | _ => false

/-- The nfs revision's handlers name `ResourceException`. -/
def catchesNfs : PyExc → Bool
  | .resourceException _ => true
  | _ => false

/-- Process-level semantics of the Python runtime: `sys.exit(c)` terminates
with status `c`; an exception that propagates to the top (neither `caller`
nor `__main__` installs a handler) terminates the interpreter with status 1;
otherwise the run continues. -/
def processExit : ProcOutcome → Option Nat
  | .exited c => some c
  | .raised _ => some 1
  | _ => none

/-- Terminal task status for shutdown and suspend. -/
def stoppedStatus : Str := "stopped".data

/-- Terminal task status for start. -/
def runningStatus : Str := "running".data

/-- `VM.shutdown`'s poll loop on an error-free trace of task statuses. -/
def VM.shutdownPolls (statuses : List Str) : Except PyExc (Option (Nat × Nat)) :=
  pollUntil stoppedStatus (statuses.map Except.ok)

/-- `VM.suspend`'s poll loop on an error-free trace of task statuses. -/
def VM.suspendPolls (statuses : List Str) : Except PyExc (Option (Nat × Nat)) :=
  pollUntil stoppedStatus (statuses.map Except.ok)

/-- `VM.start`'s poll loop on an error-free trace of task statuses. -/
def VM.startPolls (statuses : List Str) : Except PyExc (Option (Nat × Nat)) :=
  pollUntil runningStatus (statuses.map Except.ok)

/-- `VM.shutdown` in the main revision: `except RecursionError`. -/
def VM.shutdownRunMain (post : Except PyExc Str) (polls : List (Except PyExc Str))
    (refresh : Except PyExc Str) : ProcOutcome :=
  runWithHandler catchesMain (lifecycleBody stoppedStatus true post polls refresh)

/-- `VM.shutdown` in the nfs revision: `except ResourceException`. -/
def VM.shutdownRunNfs (post : Except PyExc Str) (polls : List (Except PyExc Str))
    (refresh : Except PyExc Str) : ProcOutcome :=
  runWithHandler catchesNfs (lifecycleBody stoppedStatus true post polls refresh)

/-- `VM.suspend` in the main revision. -/
def VM.suspendRunMain (post : Except PyExc Str) (polls : List (Except PyExc Str))
    (refresh : Except PyExc Str) : ProcOutcome :=
  runWithHandler catchesMain (lifecycleBody stoppedStatus true post polls refresh)

/-- `VM.suspend` in the nfs revision. -/
def VM.suspendRunNfs (post : Except PyExc Str) (polls : List (Except PyExc Str))
    (refresh : Except PyExc Str) : ProcOutcome :=
  runWithHandler catchesNfs (lifecycleBody stoppedStatus true post polls refresh)

/-- `VM.start` in the main revision (no status refresh). -/
def VM.startRunMain (post : Except PyExc Str) (polls : List (Except PyExc Str))
    (refresh : Except PyExc Str) : ProcOutcome :=
  runWithHandler catchesMain (lifecycleBody runningStatus false post polls refresh)

/-- `VM.start` in the nfs revision (no status refresh). -/
def VM.startRunNfs (post : Except PyExc Str) (polls : List (Except PyExc Str))
    (refresh : Except PyExc Str) : ProcOutcome :=
  runWithHandler catchesNfs (lifecycleBody runningStatus false post polls refresh)

end PveOntap

/-! Sanity examples for the Python builtins. -/

example : PveOntap.pySplit ':' "storageA:vm-100-disk-0.qcow2,size=32G".data =
    ["storageA".data, "vm-100-disk-0.qcow2,size=32G".data] := by decide

example : PveOntap.pathSplit "vm-100-disk-0.qcow2".data =
    ([], "vm-100-disk-0.qcow2".data) := by decide

example : PveOntap.pathSplit "100/vm-100-disk-0.qcow2".data =
    ("100".data, "vm-100-disk-0.qcow2".data) := by decide

example : PveOntap.splitext "vm-100-disk-0.qcow2".data =
    ("vm-100-disk-0".data, ".qcow2".data) := by decide

example : PveOntap.splitext ".bashrc".data = (".bashrc".data, []) := by decide

example : PveOntap.pyStrip '/' "/vol1".data = "vol1".data := by decide

example : PveOntap.pyRemovesuffix "storageA-CLONE".data "-CLONE".data =
    "storageA".data := by decide

example : PveOntap.isInfixB "proxmox_snapshot_".data
    "a_proxmox_snapshot_1".data = true := by decide

namespace PveOntap

/-! ## Helper lemmas -/

theorem isPrefixB_iff (a : Str) : ∀ b : Str, isPrefixB a b = true ↔ a <+: b := by
  induction a with
  | nil => intro b; simp [isPrefixB, List.nil_prefix]
  | cons x xs ih =>
    intro b
    cases b with
    | nil => simp [isPrefixB, List.prefix_nil]
    | cons y ys =>
      simp [isPrefixB, List.cons_prefix_cons, ih, Bool.and_eq_true, beq_iff_eq]

theorem isSuffixB_iff (a b : Str) : isSuffixB a b = true ↔ a <:+ b := by
  rw [isSuffixB, isPrefixB_iff, List.reverse_prefix]

theorem isInfixB_of_isPrefixB {needle hay : Str} (h : isPrefixB needle hay = true) :
    isInfixB needle hay = true := by
  cases hay with
  | nil =>
    cases needle with
    | nil => rfl
    | cons c t => simp [isPrefixB] at h
  | cons c t => simp [isInfixB, h]

theorem pyRemovesuffix_append (s suffix : Str) (hne : suffix ≠ [])
    (h : isSuffixB suffix s = true) : pyRemovesuffix s suffix ++ suffix = s := by
  obtain ⟨t, rfl⟩ := (isSuffixB_iff suffix s).mp h
  rw [pyRemovesuffix, if_pos (by simp [hne, h])]
  have hl : (t ++ suffix).length - suffix.length = t.length := by
    simp [List.length_append]
  rw [hl, List.take_left]

theorem rdropWhile_append_rtakeWhile (p : Char → Bool) (l : Str) :
    List.rdropWhile p l ++ List.rtakeWhile p l = l := by
  rw [List.rdropWhile, List.rtakeWhile, ← List.reverse_append,
    List.takeWhile_append_dropWhile, List.reverse_reverse]

theorem pyStrip_eq_rdropWhile (c : Char) (s : Str) :
    pyStrip c s = List.rdropWhile (· == c) (s.dropWhile (· == c)) := rfl

theorem pyStrip_decomp (c : Char) (s : Str) :
    ∃ a b, s = a ++ pyStrip c s ++ b ∧ (∀ x ∈ a, x = c) ∧ (∀ x ∈ b, x = c) := by
  refine ⟨s.takeWhile (· == c), (s.dropWhile (· == c)).rtakeWhile (· == c), ?_, ?_, ?_⟩
  · conv_lhs => rw [← List.takeWhile_append_dropWhile (· == c) s]
    rw [pyStrip_eq_rdropWhile, List.append_assoc,
      rdropWhile_append_rtakeWhile (· == c) (s.dropWhile (· == c))]
  · intro x hx
    have h1 := List.mem_takeWhile_imp hx
    simpa using h1
  · intro x hx
    have h1 := List.mem_rtakeWhile_imp hx
    simpa using h1

theorem head?_dropWhile_not (p : Char → Bool) (l : Str) (x : Char)
    (h : (l.dropWhile p).head? = some x) : p x = false := by
  have hne : l.dropWhile p ≠ [] := by
    intro hh
    rw [hh] at h
    simp at h
  have hhead := List.head_dropWhile_not p l hne
  have hx : (l.dropWhile p).head hne = x := by
    rw [List.head?_eq_head hne] at h
    exact Option.some_inj.mp h
  rwa [hx] at hhead

theorem pyStrip_head?_ne (c : Char) (s : Str) : (pyStrip c s).head? ≠ some c := by
  intro h
  rw [pyStrip_eq_rdropWhile] at h
  cases hh : List.rdropWhile (· == c) (s.dropWhile (· == c)) with
  | nil => rw [hh] at h; simp at h
  | cons x r =>
    rw [hh] at h
    have hx : x = c := by simpa using h
    have hpre := List.rdropWhile_prefix (· == c) (s.dropWhile (· == c))
    rw [hh] at hpre
    obtain ⟨u, hu⟩ := hpre
    have hh2 : (s.dropWhile (· == c)).head? = some x := by
      rw [← hu]
      rfl
    have hfalse := head?_dropWhile_not (· == c) s x hh2
    rw [hx] at hfalse
    simp at hfalse

theorem pyStrip_getLast?_ne (c : Char) (s : Str) : (pyStrip c s).getLast? ≠ some c := by
  intro h
  rw [pyStrip_eq_rdropWhile] at h
  have hne : List.rdropWhile (· == c) (s.dropWhile (· == c)) ≠ [] := by
    intro hnil
    rw [hnil] at h
    simp at h
  have hlast := List.rdropWhile_last_not (· == c) (s.dropWhile (· == c)) hne
  rw [List.getLast?_eq_getLast _ hne] at h
  have hg := Option.some_inj.mp h
  rw [hg] at hlast
  simp at hlast

/-! ## Claim theorems -/

/-- C6: for every storage-backend name, the Access Resolver's configuration
lookup key equals the name with the `-CLONE` suffix removed when the name
ends with that suffix, and equals the name unchanged otherwise; this key is
exactly the one `Storage.__init__` uses in both revisions. -/
theorem C6_access_resolver_lookup_key (exportOf : Str → Str) (name : Str) :
    (isSuffixB cloneSuffix name = true → storageAccessKey name ++ cloneSuffix = name) ∧
    (isSuffixB cloneSuffix name = false → storageAccessKey name = name) ∧
    (Storage.build exportOf name).accessKey = storageAccessKey name := by
  refine ⟨fun h => pyRemovesuffix_append name cloneSuffix (by decide) h,
    fun h => ?_, rfl⟩
  rw [storageAccessKey, pyRemovesuffix, if_neg]
  simp [h]

/-- Witness for C6 at the backend names `storageA-CLONE` and `storageB`. -/
theorem C6_witness :
    storageAccessKey "storageA-CLONE".data ++ cloneSuffix = "storageA-CLONE".data ∧
    storageAccessKey "storageB".data = "storageB".data :=
  ⟨(C6_access_resolver_lookup_key (fun _ => []) "storageA-CLONE".data).1 (by decide),
   (C6_access_resolver_lookup_key (fun _ => []) "storageB".data).2.1 (by decide)⟩

/-- C3: an unmount invocation whose resolved volume's clone flag is false
exits with code 1 (the spec's `NotAMountedSnapshot` failure) after logging,
and its trace contains no deletion of any kind: neither the compute-node
backend registration nor any volume is deleted. -/
theorem C3_unmount_nonclone_no_deletion (st : Storage) (volume : Volume)
    (h : volume.clone_is_flexclone = false) :
    (st.unmount volume).2 = some 1 ∧
    Action.logError (st.storage ++ " is not a mounted volume snapshot!".data) ∈
      (st.unmount volume).1 ∧
    ∀ a ∈ (st.unmount volume).1, a.isDeletion = false := by
  refine ⟨by simp [Storage.unmount, h], by simp [Storage.unmount, h], ?_⟩
  intro a ha
  simp only [Storage.unmount, h, Bool.not_false, if_pos, List.mem_cons,
    List.mem_singleton, List.not_mem_nil, or_false] at ha
  rcases ha with rfl | rfl <;> rfl

/-- Witness for C3 at a concrete non-clone volume. -/
theorem C3_witness :
    (Storage.unmount ⟨"storageA-CLONE".data, "vol1_clone".data, "storageA".data, []⟩
        ⟨"vol1_clone".data, "uuid-1".data, "svm1".data, false⟩).2 = some 1 ∧
    Action.logError ("storageA-CLONE".data ++ " is not a mounted volume snapshot!".data) ∈
      (Storage.unmount ⟨"storageA-CLONE".data, "vol1_clone".data, "storageA".data, []⟩
        ⟨"vol1_clone".data, "uuid-1".data, "svm1".data, false⟩).1 ∧
    ∀ a ∈ (Storage.unmount ⟨"storageA-CLONE".data, "vol1_clone".data, "storageA".data, []⟩
        ⟨"vol1_clone".data, "uuid-1".data, "svm1".data, false⟩).1, a.isDeletion = false :=
  C3_unmount_nonclone_no_deletion _ _ rfl

/-- C7: when the clone-volume creation request fails, `Storage.mount` logs
the error and still registers the `<backend>-CLONE` compute-node storage
backend; the process does not exit. -/
theorem C7_mount_clone_failure_still_registers (st : Storage) (pv : Volume)
    (snapshot : Str) (cloneResult : Except Str Unit) (store : ProxStorageAttrs)
    (e : Str) (h : cloneResult = .error e) :
    Action.logError e ∈ (st.mount pv snapshot cloneResult store).1 ∧
    Action.postProxStorage (st.storage ++ cloneSuffix) store.server store.type_
        store.content ("/".data ++ st.volume_name ++ "_clone".data) ∈
      (st.mount pv snapshot cloneResult store).1 ∧
    (st.mount pv snapshot cloneResult store).2 = none := by
  subst h
  refine ⟨?_, ?_, rfl⟩ <;> simp [Storage.mount]

/-- Witness for C7 at a concrete rejected clone creation. -/
theorem C7_witness :
    Action.logError "duplicate volume name".data ∈
      (Storage.mount ⟨"storageA".data, "vol1".data, "storageA".data, []⟩
        ⟨"vol1".data, "uuid-1".data, "svm1".data, false⟩
        "proxmox_snapshot_2024-01-01_00:00:00+0000".data
        (.error "duplicate volume name".data)
        ⟨"srv".data, "nfs".data, "images".data, "/vol1".data⟩).1 ∧
    Action.postProxStorage ("storageA".data ++ cloneSuffix) "srv".data "nfs".data
        "images".data ("/".data ++ "vol1".data ++ "_clone".data) ∈
      (Storage.mount ⟨"storageA".data, "vol1".data, "storageA".data, []⟩
        ⟨"vol1".data, "uuid-1".data, "svm1".data, false⟩
        "proxmox_snapshot_2024-01-01_00:00:00+0000".data
        (.error "duplicate volume name".data)
        ⟨"srv".data, "nfs".data, "images".data, "/vol1".data⟩).1 ∧
    (Storage.mount ⟨"storageA".data, "vol1".data, "storageA".data, []⟩
        ⟨"vol1".data, "uuid-1".data, "svm1".data, false⟩
        "proxmox_snapshot_2024-01-01_00:00:00+0000".data
        (.error "duplicate volume name".data)
        ⟨"srv".data, "nfs".data, "images".data, "/vol1".data⟩).2 = none :=
  C7_mount_clone_failure_still_registers _ _ _ _ _ _ rfl

end PveOntap

namespace PveOntap

/-- C5 counterexample: a snapshot whose name contains `proxmox_snapshot_`
without starting with it is nevertheless output by `Storage.list`, so
membership in the output is not equivalent to the name starting with the
marker. -/
theorem C5_counterexample :
    (Storage.list ⟨"storageA".data, "vol1".data, "storageA".data, []⟩
        [⟨"a_proxmox_snapshot_1".data, "copy".data⟩]).2 =
      [("a_proxmox_snapshot_1".data, "copy".data)] ∧
    isPrefixB "proxmox_snapshot_".data "a_proxmox_snapshot_1".data = false := by
  decide

/-- C5 amended: `Storage.list` outputs a `(name, comment)` pair for an
enumerated snapshot if and only if the snapshot's name contains
`proxmox_snapshot_` as a substring; in particular every name starting with
the marker is listed, but names merely containing it elsewhere are listed
too rather than excluded. -/
theorem C5_list_substring_filter (st : Storage) (snaps : List Snap) (sn : Snap)
    (h : sn ∈ snaps) :
    ((sn.name, sn.comment) ∈ (st.list snaps).2 ↔
      isInfixB "proxmox_snapshot_".data sn.name = true) ∧
    (isPrefixB "proxmox_snapshot_".data sn.name = true →
      (sn.name, sn.comment) ∈ (st.list snaps).2) := by
  have hiff : (sn.name, sn.comment) ∈ (st.list snaps).2 ↔
      isInfixB "proxmox_snapshot_".data sn.name = true := by
    constructor
    · intro hm
      simp only [Storage.list, List.mem_map, List.mem_filter] at hm
      obtain ⟨s', ⟨_, hs2⟩, heq⟩ := hm
      have hn : s'.name = sn.name := congrArg Prod.fst heq
      rwa [hn] at hs2
    · intro hc
      simp only [Storage.list, List.mem_map]
      exact ⟨sn, List.mem_filter.mpr ⟨h, hc⟩, rfl⟩
  exact ⟨hiff, fun hp => hiff.mpr (isInfixB_of_isPrefixB hp)⟩

/-- Witness for C5's amended theorem: a tool-named snapshot is listed and a
foreign-named one is not. -/
theorem C5_witness :
    ("proxmox_snapshot_2024".data, "a".data) ∈
      (Storage.list ⟨"storageA".data, "vol1".data, "storageA".data, []⟩
        [⟨"proxmox_snapshot_2024".data, "a".data⟩, ⟨"daily".data, "b".data⟩]).2 ∧
    ¬("daily".data, "b".data) ∈
      (Storage.list ⟨"storageA".data, "vol1".data, "storageA".data, []⟩
        [⟨"proxmox_snapshot_2024".data, "a".data⟩, ⟨"daily".data, "b".data⟩]).2 := by
  constructor
  · exact (C5_list_substring_filter
      ⟨"storageA".data, "vol1".data, "storageA".data, []⟩
      [⟨"proxmox_snapshot_2024".data, "a".data⟩, ⟨"daily".data, "b".data⟩]
      ⟨"proxmox_snapshot_2024".data, "a".data⟩ (by decide)).1.mpr (by decide)
  · intro hm
    have hc := (C5_list_substring_filter
      ⟨"storageA".data, "vol1".data, "storageA".data, []⟩
      [⟨"proxmox_snapshot_2024".data, "a".data⟩, ⟨"daily".data, "b".data⟩]
      ⟨"daily".data, "b".data⟩ (by decide)).1.mp hm
    exact absurd hc (by decide)

/-- C9 counterexample: with two enumerated snapshots of the same name, the
delete loop (which has no break) deletes both, not only the first exact
match. -/
theorem C9_counterexample :
    deletedOf (Storage.delete ⟨"storageA".data, "vol1".data, "storageA".data, []⟩
        [⟨"snapA".data, "first".data⟩, ⟨"snapA".data, "second".data⟩]
        "snapA".data).1 =
      [("snapA".data, "first".data), ("snapA".data, "second".data)] ∧
    deletedOf (Storage.delete ⟨"storageA".data, "vol1".data, "storageA".data, []⟩
        [⟨"snapA".data, "first".data⟩, ⟨"snapA".data, "second".data⟩]
        "snapA".data).1 ≠
      [("snapA".data, "first".data)] := by
  decide

/-- C9 amended: `Storage.delete` deletes every snapshot in the volume's
enumeration whose name exactly equals the given name (hence the first match
when names are unique), and is a no-op — completing without error or exit —
when no snapshot with that exact name exists. -/
theorem C9_delete_matches (st : Storage) (snaps : List Snap) (snapshot : Str) :
    (∀ sn ∈ snaps, sn.name = snapshot →
      (sn.name, sn.comment) ∈ deletedOf (st.delete snaps snapshot).1) ∧
    (∀ p ∈ deletedOf (st.delete snaps snapshot).1, p.1 = snapshot) ∧
    ((∀ sn ∈ snaps, sn.name ≠ snapshot) →
      deletedOf (st.delete snaps snapshot).1 = []) ∧
    (st.delete snaps snapshot).2 = none := by
  have haux : ∀ l : List Snap,
      deletedOf (l.map fun sn => Action.deleteSnapshot sn.name sn.comment) =
        l.map fun sn => (sn.name, sn.comment) := by
    intro l
    induction l with
    | nil => rfl
    | cons x t ih =>
      show (x.name, x.comment) ::
        deletedOf (t.map fun sn => Action.deleteSnapshot sn.name sn.comment) = _
      rw [ih]
      rfl
  have hdel : deletedOf (st.delete snaps snapshot).1 =
      (snaps.filter fun sn => snapshot == sn.name).map fun sn => (sn.name, sn.comment) := by
    show deletedOf ((snaps.filter fun sn => snapshot == sn.name).map
      fun sn => Action.deleteSnapshot sn.name sn.comment) = _
    exact haux _
  refine ⟨?_, ?_, ?_, rfl⟩
  · intro sn hsn hname
    rw [hdel]
    exact List.mem_map_of_mem _ (List.mem_filter.mpr ⟨hsn, by simp [hname]⟩)
  · intro p hp
    rw [hdel] at hp
    obtain ⟨s', hs', heq⟩ := List.mem_map.mp hp
    have := (List.mem_filter.mp hs').2
    rw [← heq]
    exact (beq_iff_eq.mp this).symm
  · intro hnone
    rw [hdel, List.filter_eq_nil_iff.mpr, List.map_nil]
    intro sn hsn
    simp [Ne.symm (hnone sn hsn)]

/-- Witness for C9's amended theorem: deleting an absent name deletes
nothing and completes. -/
theorem C9_witness :
    deletedOf (Storage.delete ⟨"storageA".data, "vol1".data, "storageA".data, []⟩
        [⟨"proxmox_snapshot_2024".data, "a".data⟩] "missing".data).1 = [] ∧
    (Storage.delete ⟨"storageA".data, "vol1".data, "storageA".data, []⟩
        [⟨"proxmox_snapshot_2024".data, "a".data⟩] "missing".data).2 = none := by
  constructor
  · exact (C9_delete_matches _ _ _).2.2.1 (by decide)
  · exact (C9_delete_matches ⟨"storageA".data, "vol1".data, "storageA".data, []⟩
      [⟨"proxmox_snapshot_2024".data, "a".data⟩] "missing".data).2.2.2

end PveOntap

namespace PveOntap

theorem lookupsOf_map_deleteSnapshot : ∀ l : List Snap,
    lookupsOf (l.map fun sn => Action.deleteSnapshot sn.name sn.comment) = []
  | [] => rfl
  | _ :: t => lookupsOf_map_deleteSnapshot t

/-- C10: `Storage.__init__` derives the backing volume name as the
compute-node backend's `export` attribute with all leading and trailing `/`
characters stripped (export `/vol1` yields volume name `vol1`), and every
subsequent operation passes exactly this derived name to `get_volume`. -/
theorem C10_volume_name_strip_export (exportOf : Str → Str) (name : Str)
    (vol : Volume) (snaps : List Snap) (snapshot timestamp : Str)
    (cloneResult : Except Str Unit) (store : ProxStorageAttrs) :
    (Storage.build exportOf name).volume_name = pyStrip '/' (exportOf name) ∧
    (∃ a b, exportOf name = a ++ (Storage.build exportOf name).volume_name ++ b ∧
      (∀ x ∈ a, x = '/') ∧ (∀ x ∈ b, x = '/')) ∧
    (Storage.build exportOf name).volume_name.head? ≠ some '/' ∧
    (Storage.build exportOf name).volume_name.getLast? ≠ some '/' ∧
    (Storage.build (fun _ => "/vol1".data) "storageA".data).volume_name = "vol1".data ∧
    ∀ st : Storage,
      lookupsOf (st.create vol timestamp).1 = [st.volume_name] ∧
      lookupsOf (st.restore vol snapshot).1 = [st.volume_name] ∧
      lookupsOf (st.delete snaps snapshot).1 = [st.volume_name] ∧
      lookupsOf (st.list snaps).1 = [st.volume_name] ∧
      lookupsOf (st.mount vol snapshot cloneResult store).1 = [st.volume_name] ∧
      lookupsOf (st.unmount vol).1 = [st.volume_name] ∧
      lookupsOf (st.show_ vol).1 = [st.volume_name] := by
  refine ⟨rfl, pyStrip_decomp '/' (exportOf name),
    pyStrip_head?_ne '/' (exportOf name), pyStrip_getLast?_ne '/' (exportOf name),
    by decide, ?_⟩
  intro st
  refine ⟨rfl, rfl, ?_, rfl, ?_, ?_, rfl⟩
  · show st.volume_name :: lookupsOf ((snaps.filter fun sn => snapshot == sn.name).map
      fun sn => Action.deleteSnapshot sn.name sn.comment) = [st.volume_name]
    rw [lookupsOf_map_deleteSnapshot]
  · cases cloneResult <;> rfl
  · cases hv : vol.clone_is_flexclone <;> simp [Storage.unmount, hv, lookupsOf]

/-- Witness for C10: the `/vol1` example and a concrete lookup trace. -/
theorem C10_witness :
    (Storage.build (fun _ => "/vol1".data) "storageA".data).volume_name = "vol1".data ∧
    lookupsOf (Storage.show_ ⟨"s".data, "v".data, "s".data, []⟩
        ⟨"v".data, "u".data, "svm".data, true⟩).1 = ["v".data] :=
  ⟨(C10_volume_name_strip_export (fun _ => "/vol1".data) "storageA".data
      ⟨"v".data, "u".data, "svm".data, true⟩ [] [] [] (.ok ()) default).2.2.2.2.1,
   ((C10_volume_name_strip_export (fun _ => "/vol1".data) "storageA".data
      ⟨"v".data, "u".data, "svm".data, true⟩ [] [] [] (.ok ()) default).2.2.2.2.2
      ⟨"s".data, "v".data, "s".data, []⟩).2.2.2.2.2.2⟩

theorem vmDiskEntries_spec : ∀ (config : List (Str × Str)) (entries : List (Str × Str)),
    vmDiskEntries config = some entries →
    List.Forall₂ (fun e pr => diskQualifies e.1 e.2 = true ∧ parseDiskValue e.2 = some pr)
      (config.filter fun e => diskQualifies e.1 e.2) entries := by
  intro config
  induction config with
  | nil =>
    intro entries h
    simp only [vmDiskEntries, Option.some.injEq] at h
    subst h
    simp
  | cons kv rest ih =>
    intro entries h
    obtain ⟨k, v⟩ := kv
    rw [vmDiskEntries] at h
    by_cases hq : diskQualifies k v = true
    · rw [if_pos hq] at h
      cases hp : parseDiskValue v with
      | none => rw [hp] at h; cases h
      | some e =>
        rw [hp] at h
        obtain ⟨es, hes, rfl⟩ := Option.map_eq_some'.mp h
        rw [List.filter_cons_of_pos (by exact hq)]
        exact List.Forall₂.cons ⟨hq, hp⟩ (ih es hes)
    · rw [if_neg hq] at h
      rw [List.filter_cons_of_neg (by simpa using hq)]
      exact ih entries h

/-- C1 amended: the Disk-to-Volume Mapper produces exactly one
`StorageBinding` per qualifying (ide/sata/scsi key, qcow2/raw/vmdk value,
non-cdrom) config entry, in configuration order — so a backend referenced by
several qualifying entries yields several bindings, one per entry — each
binding holding exactly the one disk path parsed from its own entry. -/
theorem C1_binding_per_entry (exportOf : Str → Str) (config : List (Str × Str))
    (bindings : List Storage) (h : vmStorages exportOf config = some bindings) :
    List.Forall₂ (fun e st =>
        diskQualifies e.1 e.2 = true ∧ parseDiskValue e.2 = some (st.storage, st.disk))
      (config.filter fun e => diskQualifies e.1 e.2) bindings ∧
    bindings.length = (config.filter fun e => diskQualifies e.1 e.2).length := by
  rw [vmStorages] at h
  obtain ⟨entries, he, rfl⟩ := Option.map_eq_some'.mp h
  have hs := vmDiskEntries_spec config entries he
  constructor
  · rw [List.forall₂_map_right_iff]
    refine hs.imp ?_
    intro e pr hpr
    exact ⟨hpr.1, hpr.2⟩
  · rw [List.length_map]
    exact hs.length_eq.symm

/-- C1 counterexample: two qualifying scsi entries on the same backend yield
two bindings both named `storageA` (each holding one disk path), not exactly
one binding for the distinct backend name. -/
theorem C1_counterexample :
    (vmStorages (fun _ => "/vol1".data)
        [("scsi0".data, "storageA:vm-100-disk-0.qcow2,size=32G".data),
         ("scsi1".data, "storageA:vm-100-disk-1.qcow2,size=10G".data)]).map
        (List.map Storage.storage) =
      some ["storageA".data, "storageA".data] ∧
    ((vmStorages (fun _ => "/vol1".data)
        [("scsi0".data, "storageA:vm-100-disk-0.qcow2,size=32G".data),
         ("scsi1".data, "storageA:vm-100-disk-1.qcow2,size=10G".data)]).getD []).countP
        (fun st => st.storage == "storageA".data) ≠ 1 := by
  decide

/-- Witness for C1's amended theorem at a one-entry configuration. -/
theorem C1_witness :
    ([Storage.mk "storageA".data "vol1".data "storageA".data
        "vm-100-disk-0.qcow2".data] : List Storage).length =
      ([(("scsi0".data : Str), "storageA:vm-100-disk-0.qcow2,size=32G".data)].filter
        fun e => diskQualifies e.1 e.2).length :=
  (C1_binding_per_entry (fun _ => "/vol1".data)
    [("scsi0".data, "storageA:vm-100-disk-0.qcow2,size=32G".data)]
    [Storage.mk "storageA".data "vol1".data "storageA".data "vm-100-disk-0.qcow2".data]
    (by decide)).2

/-- C2 amended: every file-clone request of `VM.create` has source
`images/<disk>`, destination
`images/<directory-of-disk>/<stem>-snapshot-<timestamp><ext>` — which for a
disk path with an empty directory part, such as `vm-100-disk-0.qcow2`,
contains a double slash: `images//vm-100-disk-0-snapshot-<timestamp>.qcow2`
— and `overwrite_destination = false`, with the one timestamp computed at
the start of the operation shared by every disk. -/
theorem C2_clone_requests (storages : List Storage) (timestamp : Str)
    (volOf : Str → Volume) :
    List.Forall₂ (fun (st : Storage) (req : FileCloneReq) =>
        req.volume_name = (volOf st.volume_name).name ∧
        req.volume_uuid = (volOf st.volume_name).uuid ∧
        req.source_path = "images/".data ++ st.disk ∧
        req.destination_path = "images/".data ++ (pathSplit st.disk).1 ++ "/".data ++
          ((splitext (pathSplit st.disk).2).1 ++ "-snapshot-".data ++ timestamp ++
            (splitext (pathSplit st.disk).2).2) ∧
        req.overwrite_destination = false)
      storages (VM.createRequests storages timestamp volOf) := by
  induction storages with
  | nil => exact List.Forall₂.nil
  | cons st rest ih => exact List.Forall₂.cons ⟨rfl, rfl, rfl, rfl, rfl⟩ ih

/-- C2 counterexample: at the claim's own concrete input — disk path
`vm-100-disk-0.qcow2`, timestamp `2024-01-01_00:00:00+0000` — the generated
destination path carries a double slash and is not the claimed
`images/vm-100-disk-0-snapshot-2024-01-01_00:00:00+0000.qcow2`. -/
theorem C2_counterexample :
    (fileCloneRequest ⟨"vol1".data, "uuid-1".data, "svm1".data, false⟩
        "vm-100-disk-0.qcow2".data "2024-01-01_00:00:00+0000".data).destination_path =
      "images//vm-100-disk-0-snapshot-2024-01-01_00:00:00+0000.qcow2".data ∧
    (fileCloneRequest ⟨"vol1".data, "uuid-1".data, "svm1".data, false⟩
        "vm-100-disk-0.qcow2".data "2024-01-01_00:00:00+0000".data).destination_path ≠
      "images/vm-100-disk-0-snapshot-2024-01-01_00:00:00+0000.qcow2".data := by
  decide

end PveOntap

namespace PveOntap

theorem pollUntil_map_ok_spec (expected : Str) : ∀ (tr : List Str) (n sl : Nat),
    pollUntil expected (tr.map Except.ok) = .ok (some (n, sl)) →
    0 < n ∧ n ≤ tr.length ∧ tr.getD (n - 1) [] = expected ∧
    (∀ i, i < n - 1 → tr.getD i [] ≠ expected) ∧ sl = n - 1 := by
  intro tr
  induction tr with
  | nil =>
    intro n sl h
    simp [pollUntil] at h
  | cons s rest ih =>
    intro n sl h
    rw [List.map_cons, pollUntil] at h
    by_cases hs : (s == expected) = true
    · rw [if_pos hs] at h
      simp only [Except.ok.injEq, Option.some.injEq, Prod.mk.injEq] at h
      obtain ⟨hn, hsl⟩ := h
      subst hn hsl
      refine ⟨Nat.one_pos, by simp, ?_, ?_, rfl⟩
      · simpa using beq_iff_eq.mp hs
      · intro i hi
        exact absurd hi (by omega)
    · rw [if_neg hs] at h
      cases hrec : pollUntil expected (rest.map Except.ok) with
      | error e => rw [hrec] at h; cases h
      | ok o =>
        cases o with
        | none => rw [hrec] at h; simp at h
        | some pr =>
          obtain ⟨p, q⟩ := pr
          rw [hrec] at h
          simp only [Except.ok.injEq, Option.some.injEq, Prod.mk.injEq] at h
          obtain ⟨hn, hsl⟩ := h
          obtain ⟨h1, h2, h3, h4, h5⟩ := ih p q hrec
          subst hn hsl
          refine ⟨Nat.succ_pos p, by simpa using h2, ?_, ?_, ?_⟩
          · have hp : p = (p - 1) + 1 := (Nat.succ_pred_eq_of_pos h1).symm
            rw [Nat.add_sub_cancel, hp, List.getD_cons_succ]
            exact h3
          · intro i hi
            rw [Nat.add_sub_cancel] at hi
            cases i with
            | zero =>
              simp only [List.getD_cons_zero]
              intro hcon
              exact absurd (beq_iff_eq.mpr hcon) (by simpa using hs)
            | succ j =>
              rw [List.getD_cons_succ]
              exact h4 j (by omega)
          · rw [Nat.add_sub_cancel]
            omega

theorem pollUntil_map_ok_none (expected : Str) : ∀ tr : List Str,
    (∀ s ∈ tr, s ≠ expected) → pollUntil expected (tr.map Except.ok) = .ok none := by
  intro tr
  induction tr with
  | nil => intro _; rfl
  | cons s rest ih =>
    intro h
    rw [List.map_cons, pollUntil,
      if_neg (by simpa using h s (List.mem_cons_self s rest)),
      ih fun x hx => h x (List.mem_cons_of_mem s hx)]

/-- C8: a lifecycle poll loop returns exactly when a poll observes the
terminal status, after `n` polls of which the first `n - 1` observed a
non-terminal status, sleeping a fixed 1 second between consecutive polls
(`n - 1` sleeps); it does not return while no poll observes the terminal
status. On the trace running, running, stopped, shutdown makes exactly three
polls; suspend behaves the same with terminal `stopped`, start with terminal
`running`. -/
theorem C8_poll_until_terminal :
    (∀ (tr : List Str) (n sl : Nat), VM.shutdownPolls tr = .ok (some (n, sl)) →
      0 < n ∧ n ≤ tr.length ∧ tr.getD (n - 1) [] = stoppedStatus ∧
      (∀ i, i < n - 1 → tr.getD i [] ≠ stoppedStatus) ∧ sl = n - 1) ∧
    (∀ tr : List Str, (∀ s ∈ tr, s ≠ stoppedStatus) → VM.shutdownPolls tr = .ok none) ∧
    VM.shutdownPolls ["running".data, "running".data, "stopped".data] = .ok (some (3, 2)) ∧
    (∀ (tr : List Str) (n sl : Nat), VM.suspendPolls tr = .ok (some (n, sl)) →
      0 < n ∧ n ≤ tr.length ∧ tr.getD (n - 1) [] = stoppedStatus ∧
      (∀ i, i < n - 1 → tr.getD i [] ≠ stoppedStatus) ∧ sl = n - 1) ∧
    (∀ tr : List Str, (∀ s ∈ tr, s ≠ stoppedStatus) → VM.suspendPolls tr = .ok none) ∧
    VM.suspendPolls ["running".data, "running".data, "stopped".data] = .ok (some (3, 2)) ∧
    (∀ (tr : List Str) (n sl : Nat), VM.startPolls tr = .ok (some (n, sl)) →
      0 < n ∧ n ≤ tr.length ∧ tr.getD (n - 1) [] = runningStatus ∧
      (∀ i, i < n - 1 → tr.getD i [] ≠ runningStatus) ∧ sl = n - 1) ∧
    (∀ tr : List Str, (∀ s ∈ tr, s ≠ runningStatus) → VM.startPolls tr = .ok none) ∧
    VM.startPolls ["stopped".data, "running".data] = .ok (some (2, 1)) :=
  ⟨fun tr n sl h => pollUntil_map_ok_spec stoppedStatus tr n sl h,
   fun tr h => pollUntil_map_ok_none stoppedStatus tr h,
   rfl,
   fun tr n sl h => pollUntil_map_ok_spec stoppedStatus tr n sl h,
   fun tr h => pollUntil_map_ok_none stoppedStatus tr h,
   rfl,
   fun tr n sl h => pollUntil_map_ok_spec runningStatus tr n sl h,
   fun tr h => pollUntil_map_ok_none runningStatus tr h,
   rfl⟩

/-- Witness for C8 on the three-poll shutdown trace. -/
theorem C8_witness :
    0 < 3 ∧
    3 ≤ (["running".data, "running".data, "stopped".data] : List Str).length ∧
    (["running".data, "running".data, "stopped".data] : List Str).getD (3 - 1) [] =
      stoppedStatus ∧
    (∀ i, i < 3 - 1 →
      (["running".data, "running".data, "stopped".data] : List Str).getD i [] ≠
        stoppedStatus) ∧
    2 = 3 - 1 :=
  C8_poll_until_terminal.1 ["running".data, "running".data, "stopped".data] 3 2 rfl

theorem processExit_handler_error (catches : PyExc → Bool)
    (body : Except PyExc (Option Unit)) (e : PyExc) (hbody : body = .error e) :
    processExit (runWithHandler catches body) = some 1 := by
  subst hbody
  by_cases hc : catches e = true
  · simp [runWithHandler, hc, processExit]
  · simp [runWithHandler, hc, processExit]

theorem pollUntil_error_reached (expected : Str) (e : PyExc) :
    ∀ pre : List Str, (∀ s ∈ pre, s ≠ expected) →
    ∀ rest : List (Except PyExc Str),
    pollUntil expected (pre.map Except.ok ++ .error e :: rest) = .error e := by
  intro pre
  induction pre with
  | nil => intro _ rest; rfl
  | cons s t ih =>
    intro h rest
    rw [List.map_cons, List.cons_append, pollUntil,
      if_neg (by simpa using h s (List.mem_cons_self s t)),
      ih (fun x hx => h x (List.mem_cons_of_mem s hx)) rest]

/-- C4: for each lifecycle operation (shutdown, suspend, start) in both
revisions, a compute-node communication or resource error raised while
issuing the action or while polling the task makes the operation end the
whole process with exit code 1 — in the nfs revision via the
`except ResourceException` handler's `sys.exit(1)`, in the main revision
(whose handler names `RecursionError`) via the uncaught exception
terminating the interpreter, whose status is also 1. An error raised by the
action post, or by a poll reached before the terminal status, always
surfaces as the try-body's error. -/
theorem C4_comm_error_fatal_exit :
    (∀ (post : Except PyExc Str) (polls : List (Except PyExc Str))
        (refresh : Except PyExc Str) (e : PyExc), e.commOrResource = true →
      (lifecycleBody stoppedStatus true post polls refresh = .error e →
        processExit (VM.shutdownRunMain post polls refresh) = some 1 ∧
        processExit (VM.shutdownRunNfs post polls refresh) = some 1 ∧
        processExit (VM.suspendRunMain post polls refresh) = some 1 ∧
        processExit (VM.suspendRunNfs post polls refresh) = some 1) ∧
      (lifecycleBody runningStatus false post polls refresh = .error e →
        processExit (VM.startRunMain post polls refresh) = some 1 ∧
        processExit (VM.startRunNfs post polls refresh) = some 1)) ∧
    (∀ (expected : Str) (refreshStatus : Bool) (polls : List (Except PyExc Str))
        (refresh : Except PyExc Str) (e : PyExc),
      lifecycleBody expected refreshStatus (.error e) polls refresh = .error e) ∧
    (∀ (expected : Str) (e : PyExc) (pre : List Str) (rest : List (Except PyExc Str)),
      (∀ s ∈ pre, s ≠ expected) →
      pollUntil expected (pre.map Except.ok ++ .error e :: rest) = .error e) := by
  refine ⟨?_, fun _ _ _ _ _ => rfl, fun expected e pre rest h =>
    pollUntil_error_reached expected e pre h rest⟩
  intro post polls refresh e _
  constructor
  · intro hbody
    exact ⟨processExit_handler_error catchesMain _ e hbody,
      processExit_handler_error catchesNfs _ e hbody,
      processExit_handler_error catchesMain _ e hbody,
      processExit_handler_error catchesNfs _ e hbody⟩
  · intro hbody
    exact ⟨processExit_handler_error catchesMain _ e hbody,
      processExit_handler_error catchesNfs _ e hbody⟩

/-- Witness for C4: a resource error on the second poll of a shutdown is
fatal with exit code 1 in both revisions. -/
theorem C4_witness :
    processExit (VM.shutdownRunMain (Except.ok "upid".data)
        [Except.ok "running".data,
         Except.error (PyExc.resourceException "timeout".data)]
        (Except.ok "stopped".data)) = some 1 ∧
    processExit (VM.shutdownRunNfs (Except.ok "upid".data)
        [Except.ok "running".data,
         Except.error (PyExc.resourceException "timeout".data)]
        (Except.ok "stopped".data)) = some 1 ∧
    processExit (VM.suspendRunMain (Except.ok "upid".data)
        [Except.ok "running".data,
         Except.error (PyExc.resourceException "timeout".data)]
        (Except.ok "stopped".data)) = some 1 ∧
    processExit (VM.suspendRunNfs (Except.ok "upid".data)
        [Except.ok "running".data,
         Except.error (PyExc.resourceException "timeout".data)]
        (Except.ok "stopped".data)) = some 1 :=
  ((C4_comm_error_fatal_exit.1 (Except.ok "upid".data)
    [Except.ok "running".data, Except.error (PyExc.resourceException "timeout".data)]
    (Except.ok "stopped".data) (PyExc.resourceException "timeout".data) rfl).1) rfl

end PveOntap
